import Mathlib

/-!
# Verification of the hardhat-verify orchestration logic

This file embeds the task actions of `packages/hardhat-verify/src/index.ts`
as pure Lean functions.  External collaborators (the Etherscan transport,
the artifact store, the compile-task pipeline, bytecode analysis) are passed
in as explicit environment records, following the interfaces the orchestrator
calls them through.  Each action additionally returns a trace of the
collaborator calls it performed, so that claims of the form "no second
attempt is made" or "no build info is loaded" can be stated as facts about
the trace.
-/

namespace HardhatVerify

/-- The table of linked libraries: source name to (library name to address),
mirroring the `settings.libraries` field of a standard compiler JSON input. -/
def Libraries : Type := List (String × List (String × String))

instance : DecidableEq Libraries := by
  unfold Libraries
  infer_instance

instance : Inhabited Libraries := ⟨([] : List (String × List (String × String)))⟩

/-- User-supplied mapping from library name to deployed address. -/
def LibraryToAddress : Type := List (String × String)

instance : DecidableEq LibraryToAddress := by
  unfold LibraryToAddress
  infer_instance

/-- The `settings` object of a compiler JSON input.  The orchestrator only
ever touches the `libraries` field (`compilerInput.settings.libraries = ...`);
every other settings field is kept abstract in the `rest` component and is
never modified. -/
structure CompilerSettings where
  libraries : Libraries
  rest : String
deriving DecidableEq

/-- A standard compiler JSON input: `{language, sources, settings}`. -/
structure CompilerInput where
  language : String
  sources : List (String × String)
  settings : CompilerSettings
deriving DecidableEq

/-- The deployed bytecode object, as the orchestrator sees it: the analysis
methods of the `Bytecode` class (`isOvm`, `getVersion`, `hasVersionRange`,
`getMatchingVersions`) live outside this file's scope and are abstracted as
record fields. -/
structure Bytecode where
  isOvm : Bool
  version : String
  hasVersionRange : Bool
  getMatchingVersions : List String → List String

/-- Resolved identity of a matching contract (the part of
`ContractInformation` the orchestrator reads). -/
structure ContractInformation where
  sourceName : String
  contractName : String
  solcLongVersion : String
  compilerInput : CompilerInput
  abi : String
deriving DecidableEq

/-- The library resolution result attached by `getLibraryInformation`. -/
structure LibraryInformation where
  libraries : Libraries
  undetectableLibraries : List String
deriving DecidableEq

/-- The pair `ContractInformation & LibraryInformation`, built by spreading
both records. -/
structure ExtendedContractInformation extends ContractInformation, LibraryInformation
deriving DecidableEq

/-- The error taxonomy of `internal/errors`, restricted to the constructors
raised from `index.ts`, each carrying the arguments the code passes. -/
inductive HardhatVerifyError where
  | MissingAddress
  | InvalidAddress (address : String)
  | InvalidContractName (contract : String)
  | InvalidConstructorArguments
  | InvalidLibraries
  | CompilerVersionsMismatch (configuredVersions : List String)
      (extractedVersion : String) (network : String)
  | ContractNotFound (contractFQN : String)
  | BuildInfoNotFound (contractFQN : String)
  | BuildInfoCompilerVersionMismatch (contractFQN : String)
      (deployedVersion : String) (deployedHasRange : Bool)
      (buildInfoVersion : String) (network : String)
  | DeployedBytecodeMismatch (network : String) (contractFQN : String)
  | UnexpectedNumberOfFiles
  | VerificationAPIUnexpectedMessage (message : String)
  | ContractVerificationFailed (message : String)
      (undetectableLibraries : List String)
deriving DecidableEq

/-- Trace events: one per collaborator call an action can perform. -/
inductive Event where
  | isVerifiedCheck
  | fetchDeployedBytecode
  | getContractInformationCall
  | getMinimalInputCall
  | encodeArgumentsCall
  | submit (input : CompilerInput)
  | poll (guid : String)
  | artifactExistsCall
  | getBuildInfoCall
  | extractMatchingCall
  | extractInferredCall
  | getLibraryInformationCall
  | getDependencyGraphCall
  | buildCompilationJobCall
  | buildCompilerInputCall
deriving DecidableEq

/-- The compiler inputs submitted in a trace, in order. -/
def submitsOf (events : List Event) : List CompilerInput :=
  events.filterMap fun e =>
    match e with
    | Event.submit input => some input
    | _ => none

/-- The poll request tokens of a trace, in order. -/
def pollsOf (events : List Event) : List String :=
  events.filterMap fun e =>
    match e with
    | Event.poll guid => some guid
    | _ => none

/-- Terminal status object returned by `getVerificationStatus`: the
`isFailure()` / `isSuccess()` predicates and the reported message. -/
structure VerificationStatus where
  isFailure : Bool
  isSuccess : Bool
  message : String
deriving DecidableEq

/-- The remote verification transport: `verify` submits a payload and
returns a request token (guid), `getVerificationStatus` polls it. -/
structure VerificationProvider where
  verify : CompilerInput → String
  getVerificationStatus : String → VerificationStatus

/-- The `{success, message}` record returned by the attempt subtask. -/
structure VerificationResponse where
  success : Bool
  message : String
deriving DecidableEq

/-- Mirrors `compilerInput.settings.libraries = contractInformation.libraries`:
overwrite the libraries table of a compiler input, leaving everything else
untouched. -/
def injectLibraries (libs : Libraries) (input : CompilerInput) : CompilerInput :=
  { input with settings := { input.settings with libraries := libs } }

/-- The status the remote service reports for one attempt: submit the
library-injected input, obtain the guid, poll once. -/
def attemptStatus (iface : VerificationProvider) (libs : Libraries)
    (input : CompilerInput) : VerificationStatus :=
  iface.getVerificationStatus (iface.verify (injectLibraries libs input))

/-- Result of one run of the attempt subtask: the payload that was
serialized and submitted, the trace, and the returned response or the
error thrown. -/
structure AttemptOutcome where
  submittedInput : CompilerInput
  events : List Event
  response : Except HardhatVerifyError VerificationResponse

/-- The subtask `TASK_VERIFY_ETHERSCAN_ATTEMPT_VERIFICATION`: inject the resolved
libraries into the compiler input, submit it, wait, poll once; a status
that is neither failure nor success throws
`VerificationAPIUnexpectedMessageError`; otherwise return
`{success: isSuccess, message}`. -/
def attemptVerification (iface : VerificationProvider)
    (contractInformation : ExtendedContractInformation)
    (compilerInput : CompilerInput) : AttemptOutcome :=
  let input := injectLibraries contractInformation.libraries compilerInput
  let guid := iface.verify input
  let verificationStatus := iface.getVerificationStatus guid
  let events := [Event.submit input, Event.poll guid]
  if !(verificationStatus.isFailure || verificationStatus.isSuccess) then
    { submittedInput := input
      events := events
      response := Except.error
        (HardhatVerifyError.VerificationAPIUnexpectedMessage
          verificationStatus.message) }
  else
    { submittedInput := input
      events := events
      response := Except.ok
        { success := verificationStatus.isSuccess
          message := verificationStatus.message } }

/-- Environment for the main Etherscan subtask, fixing one verification
request: argument resolution and chain-config lookup have succeeded,
collaborator outcomes are recorded as fields.  `getContractInformation`
closes over the fixed `contractFQN` and user libraries and takes the
matching compiler versions the orchestrator computes; `iface n` is the
transport as seen by the n-th submission attempt (remote state may evolve
between attempts). -/
structure EtherscanEnv where
  networkName : String
  isVerified : Bool
  configCompilerVersions : List String
  deployedBytecode : Bytecode
  getContractInformation :
    List String → Except HardhatVerifyError ExtendedContractInformation
  getMinimalInput : String → Except HardhatVerifyError CompilerInput
  encodeArguments : Except HardhatVerifyError String
  iface : Nat → VerificationProvider

/-- The subtask `TASK_VERIFY_ETHERSCAN`: already-verified short-circuit, compiler
version matching with the OVM exemption, contract resolution, minimal
input construction, constructor-argument encoding, then the minimal
attempt followed (only on failure) by the full-input attempt. -/
def etherscanAction (env : EtherscanEnv) :
    Except HardhatVerifyError Unit × List Event :=
  if env.isVerified then
    (Except.ok (), [Event.isVerifiedCheck])
  else
    let bc := env.deployedBytecode
    let matchingCompilerVersions := bc.getMatchingVersions env.configCompilerVersions
    let ev0 := [Event.isVerifiedCheck, Event.fetchDeployedBytecode]
    if matchingCompilerVersions.length == 0 && !bc.isOvm then
      (Except.error
        (HardhatVerifyError.CompilerVersionsMismatch
          env.configCompilerVersions bc.version env.networkName), ev0)
    else
      match env.getContractInformation matchingCompilerVersions with
      | Except.error e => (Except.error e, ev0 ++ [Event.getContractInformationCall])
      | Except.ok contractInformation =>
        let ev1 := ev0 ++ [Event.getContractInformationCall]
        match env.getMinimalInput contractInformation.sourceName with
        | Except.error e => (Except.error e, ev1 ++ [Event.getMinimalInputCall])
        | Except.ok minimalInput =>
          let ev2 := ev1 ++ [Event.getMinimalInputCall]
          match env.encodeArguments with
          | Except.error e => (Except.error e, ev2 ++ [Event.encodeArgumentsCall])
          | Except.ok _ =>
            let ev3 := ev2 ++ [Event.encodeArgumentsCall]
            let a0 := attemptVerification (env.iface 0) contractInformation minimalInput
            match a0.response with
            | Except.error e => (Except.error e, ev3 ++ a0.events)
            | Except.ok r0 =>
              if r0.success then
                (Except.ok (), ev3 ++ a0.events)
              else
                let a1 := attemptVerification (env.iface 1) contractInformation
                  contractInformation.compilerInput
                match a1.response with
                | Except.error e => (Except.error e, ev3 ++ a0.events ++ a1.events)
                | Except.ok r1 =>
                  if r1.success then
                    (Except.ok (), ev3 ++ a0.events ++ a1.events)
                  else
                    (Except.error
                      (HardhatVerifyError.ContractVerificationFailed r1.message
                        contractInformation.undetectableLibraries),
                     ev3 ++ a0.events ++ a1.events)

/-- A build-info record: producing compiler version plus the full
multi-file compiler input of that compilation. -/
structure BuildInfo where
  solcVersion : String
  compilerInput : CompilerInput
deriving DecidableEq

/-- Environment for the contract-information subtask.  `artifactExists`
may throw (modelled as `Except` with an abstract error payload);
`extractMatchingContractInformation` and the inferred-mode scan and the
library resolver live in `internal/solc/artifacts` and are abstracted as
fields. -/
structure GetContractInformationEnv where
  networkName : String
  artifactExists : String → Except String Bool
  getBuildInfo : String → Option BuildInfo
  extractMatchingContractInformation :
    String → BuildInfo → Bytecode → Option ContractInformation
  extractInferredContractInformation :
    Except HardhatVerifyError ContractInformation
  getLibraryInformation :
    ContractInformation → LibraryToAddress →
      Except HardhatVerifyError LibraryInformation

/-- Shared tail of both resolution modes: resolve the library information
and spread it over the contract information. -/
def finishWithLibraries (env : GetContractInformationEnv)
    (contractInformation : ContractInformation)
    (libraries : LibraryToAddress) (events : List Event) :
    Except HardhatVerifyError ExtendedContractInformation × List Event :=
  match env.getLibraryInformation contractInformation libraries with
  | Except.error e => (Except.error e, events ++ [Event.getLibraryInformationCall])
  | Except.ok libraryInformation =>
    (Except.ok
      { toContractInformation := contractInformation
        toLibraryInformation := libraryInformation },
     events ++ [Event.getLibraryInformationCall])

/-- The subtask `TASK_VERIFY_ETHERSCAN_GET_CONTRACT_INFORMATION`: named mode checks
artifact existence (a throw is swallowed to `false`), loads build info,
checks the producing compiler version (skipped for OVM bytecode) and
requires an exact bytecode match; inferred mode delegates to the artifact
scan.  Both modes finish by resolving libraries. -/
def getContractInformationAction (env : GetContractInformationEnv)
    (contractFQN : Option String) (deployedBytecode : Bytecode)
    (matchingCompilerVersions : List String) (libraries : LibraryToAddress) :
    Except HardhatVerifyError ExtendedContractInformation × List Event :=
  match contractFQN with
  | some fqn =>
    let artifactExists :=
      match env.artifactExists fqn with
      | Except.ok b => b
      | Except.error _ => false
    if !artifactExists then
      (Except.error (HardhatVerifyError.ContractNotFound fqn),
       [Event.artifactExistsCall])
    else
      match env.getBuildInfo fqn with
      | none =>
        (Except.error (HardhatVerifyError.BuildInfoNotFound fqn),
         [Event.artifactExistsCall, Event.getBuildInfoCall])
      | some buildInfo =>
        let ev1 := [Event.artifactExistsCall, Event.getBuildInfoCall]
        if !(matchingCompilerVersions.contains buildInfo.solcVersion)
            && !deployedBytecode.isOvm then
          (Except.error
            (HardhatVerifyError.BuildInfoCompilerVersionMismatch fqn
              deployedBytecode.version deployedBytecode.hasVersionRange
              buildInfo.solcVersion env.networkName), ev1)
        else
          match env.extractMatchingContractInformation fqn buildInfo deployedBytecode with
          | none =>
            (Except.error
              (HardhatVerifyError.DeployedBytecodeMismatch env.networkName fqn),
             ev1 ++ [Event.extractMatchingCall])
          | some contractInformation =>
            finishWithLibraries env contractInformation libraries
              (ev1 ++ [Event.extractMatchingCall])
  | none =>
    match env.extractInferredContractInformation with
    | Except.error e => (Except.error e, [Event.extractInferredCall])
    | Except.ok contractInformation =>
      finishWithLibraries env contractInformation libraries
        [Event.extractInferredCall]

/-- A resolved file of the dependency graph. -/
structure ResolvedFile where
  sourceName : String
  absolutePath : String
deriving DecidableEq

/-- An opaque compilation job handle. -/
structure CompilationJob where
  jobId : String
deriving DecidableEq

/-- Environment for the minimal-input subtask: the resolved files of the
dependency closure computed for the requested source name, and the two
compile-task collaborators. -/
structure MinimalInputEnv where
  getResolvedFiles : List ResolvedFile
  getCompilationJobForFile : ResolvedFile → CompilationJob
  getCompilerInput : CompilationJob → CompilerInput

/-- The subtask `TASK_VERIFY_ETHERSCAN_GET_MINIMAL_INPUT`: filter the closure's
resolved files down to the requested source name; any count other than
exactly one throws `UnexpectedNumberOfFilesError` before a compilation
job is built; otherwise build the job for that single file and return its
compiler input (deep-cloned, which is the identity here). -/
def getMinimalInputAction (env : MinimalInputEnv) (sourceName : String) :
    Except HardhatVerifyError CompilerInput × List Event :=
  let resolvedFiles :=
    env.getResolvedFiles.filter fun resolvedFile =>
      resolvedFile.sourceName == sourceName
  match resolvedFiles with
  | [file] =>
    let compilationJob := env.getCompilationJobForFile file
    (Except.ok (env.getCompilerInput compilationJob),
     [Event.getDependencyGraphCall, Event.buildCompilationJobCall,
      Event.buildCompilerInputCall])
  | _ =>
    (Except.error HardhatVerifyError.UnexpectedNumberOfFiles,
     [Event.getDependencyGraphCall])

/-- JS-object assignment `errors[key] = value`: replace the binding if the
key is present, append it otherwise. -/
def setKey (m : List (String × HardhatVerifyError)) (k : String)
    (v : HardhatVerifyError) : List (String × HardhatVerifyError) :=
  if m.any (fun p => p.1 == k) then
    m.map fun p => if p.1 == k then (k, v) else p
  else
    m ++ [(k, v)]

/-- The `for (const verificationSubtask of verificationSubtasks)` loop:
run every subtask, catching each failure into the keyed error record and
raising the `hasErrors` flag, never aborting the loop. -/
def runSubtasksLoop (runSubtask : String → Except HardhatVerifyError Unit)
    (pending : List String) (invoked : List String)
    (errors : List (String × HardhatVerifyError)) (hasErrors : Bool) :
    List String × List (String × HardhatVerifyError) × Bool :=
  match pending with
  | [] => (invoked, errors, hasErrors)
  | s :: rest =>
    match runSubtask s with
    | Except.ok _ => runSubtasksLoop runSubtask rest (invoked ++ [s]) errors hasErrors
    | Except.error e =>
      runSubtasksLoop runSubtask rest (invoked ++ [s]) (setKey errors s e) true

/-- Outcome of the `verify` meta-task: which subtasks ran, the keyed
failures, what was printed by `printVerificationErrors`, and the
`process.exit` code if any. -/
structure VerifyTaskResult where
  invoked : List String
  errors : List (String × HardhatVerifyError)
  reported : Option (List (String × HardhatVerifyError))
  exitCode : Option Nat
deriving DecidableEq

/-- The meta-task `TASK_VERIFY`: unless `--list-networks` was passed, run every
verification subtask, collect failures keyed by subtask, and if any
failed, print them all together and exit with status 1. -/
def verifyTaskAction (listNetworks : Bool) (verificationSubtasks : List String)
    (runSubtask : String → Except HardhatVerifyError Unit) : VerifyTaskResult :=
  if listNetworks then
    { invoked := [], errors := [], reported := none, exitCode := none }
  else
    let r := runSubtasksLoop runSubtask verificationSubtasks [] [] false
    let hasErrors := r.2.2
    { invoked := r.1
      errors := r.2.1
      reported := if hasErrors then some r.2.1 else none
      exitCode := if hasErrors then some 1 else none }

/-- A Boolean error discriminator for subtask outcomes. -/
def isError : Except HardhatVerifyError Unit → Bool
  | Except.error _ => true
  | Except.ok _ => false

/-! ### Concrete sample data -/

def sampleSettings : CompilerSettings :=
  { libraries := ([] : List (String × List (String × String))), rest := "optimizer=200" }

def sampleMinimalInput : CompilerInput :=
  { language := "Solidity"
    sources := [("contracts/A.sol", "contract A")]
    settings := sampleSettings }

def sampleFullInput : CompilerInput :=
  { language := "Solidity"
    sources := [("contracts/A.sol", "contract A"), ("contracts/B.sol", "contract B")]
    settings := sampleSettings }

def sampleLibraryTable : Libraries :=
  [("contracts/Lib.sol", [("MathLib", "0x5FbDB2315678afecb367f032d93F642f64180aa3")])]

def sampleContractInformation : ContractInformation :=
  { sourceName := "contracts/A.sol"
    contractName := "A"
    solcLongVersion := "0.8.19+commit.7dd6d404"
    compilerInput := sampleFullInput
    abi := "[]" }

def sampleExtendedInformation : ExtendedContractInformation :=
  { toContractInformation := sampleContractInformation
    toLibraryInformation :=
      { libraries := sampleLibraryTable, undetectableLibraries := ["CtorLib"] } }

def sampleFailProvider : VerificationProvider :=
  { verify := fun _ => "guid-0"
    getVerificationStatus := fun _ =>
      { isFailure := true, isSuccess := false, message := "Fail - Unable to verify" } }

def sampleSuccessProvider : VerificationProvider :=
  { verify := fun _ => "guid-1"
    getVerificationStatus := fun _ =>
      { isFailure := false, isSuccess := true, message := "Pass - Verified" } }

def samplePendingProvider : VerificationProvider :=
  { verify := fun _ => "guid-2"
    getVerificationStatus := fun _ =>
      { isFailure := false, isSuccess := false, message := "Pending in queue" } }

def sampleBytecode : Bytecode :=
  { isOvm := false
    version := "0.8.19"
    hasVersionRange := false
    getMatchingVersions := fun configured => configured }

/-- An environment in which the minimal attempt fails and the full attempt
succeeds. -/
def sampleEtherscanEnv : EtherscanEnv :=
  { networkName := "mainnet"
    isVerified := false
    configCompilerVersions := ["0.8.19"]
    deployedBytecode := sampleBytecode
    getContractInformation := fun _ => Except.ok sampleExtendedInformation
    getMinimalInput := fun _ => Except.ok sampleMinimalInput
    encodeArguments := Except.ok ""
    iface := fun n => if n == 0 then sampleFailProvider else sampleSuccessProvider }

def sampleVerifiedEnv : EtherscanEnv :=
  { sampleEtherscanEnv with isVerified := true }

/-- An environment whose deployed bytecode matches no configured compiler
version and is not OVM bytecode. -/
def sampleMismatchEnv : EtherscanEnv :=
  { sampleEtherscanEnv with
    deployedBytecode := { sampleBytecode with getMatchingVersions := fun _ => [] } }

def sampleBuildInfo : BuildInfo :=
  { solcVersion := "0.8.1", compilerInput := sampleFullInput }

def sampleResolverEnv : GetContractInformationEnv :=
  { networkName := "mainnet"
    artifactExists := fun _ => Except.ok true
    getBuildInfo := fun _ => some sampleBuildInfo
    extractMatchingContractInformation := fun _ _ _ => none
    extractInferredContractInformation := Except.ok sampleContractInformation
    getLibraryInformation := fun _ _ =>
      Except.ok { libraries := sampleLibraryTable, undetectableLibraries := [] } }

def sampleThrowingEnv : GetContractInformationEnv :=
  { sampleResolverEnv with artifactExists := fun _ => Except.error "ENOENT" }

def sampleMinimalInputEnv : MinimalInputEnv :=
  { getResolvedFiles := []
    getCompilationJobForFile := fun _ => { jobId := "job-0" }
    getCompilerInput := fun _ => sampleMinimalInput }

def sampleRunSubtask : String → Except HardhatVerifyError Unit := fun s =>
  if s == "verify:etherscan" then
    Except.error
      (HardhatVerifyError.ContractVerificationFailed "Fail - Unable to verify" [])
  else
    Except.ok ()

/-! ### Helper lemmas -/

/-- The payload an attempt submits is always the library-injected input. -/
theorem attemptVerification_submittedInput (iface : VerificationProvider)
    (ci : ExtendedContractInformation) (input : CompilerInput) :
    (attemptVerification iface ci input).submittedInput =
      injectLibraries ci.libraries input := by
  simp only [attemptVerification]
  split <;> rfl

/-- Every attempt performs exactly one submission then one poll. -/
theorem attemptVerification_events (iface : VerificationProvider)
    (ci : ExtendedContractInformation) (input : CompilerInput) :
    (attemptVerification iface ci input).events =
      [Event.submit (injectLibraries ci.libraries input),
       Event.poll (iface.verify (injectLibraries ci.libraries input))] := by
  simp only [attemptVerification]
  split <;> rfl

/-- When the polled status is one of the two terminal states, the attempt
returns the `{success, message}` record taken from it. -/
theorem attemptVerification_response_ok (iface : VerificationProvider)
    (ci : ExtendedContractInformation) (input : CompilerInput)
    (h : ((attemptStatus iface ci.libraries input).isFailure
        || (attemptStatus iface ci.libraries input).isSuccess) = true) :
    (attemptVerification iface ci input).response =
      Except.ok
        { success := (attemptStatus iface ci.libraries input).isSuccess
          message := (attemptStatus iface ci.libraries input).message } := by
  unfold attemptStatus at h ⊢
  simp [attemptVerification, h]

/-! ### Claims -/

/-- C2: for every verification submission, after polling, a reported status
that is neither the failure terminal state nor the success terminal state
makes the attempt subtask throw `VerificationAPIUnexpectedMessage` carrying
the reported message; such a status is never turned into a success or a
failure response, and the attempt performs exactly one submission and one
poll, so it is never retried. -/
theorem c2_unexpected_status_is_protocol_violation
    (iface : VerificationProvider) (ci : ExtendedContractInformation)
    (input : CompilerInput)
    (h : ((attemptStatus iface ci.libraries input).isFailure
        || (attemptStatus iface ci.libraries input).isSuccess) = false) :
    (attemptVerification iface ci input).response =
      Except.error (HardhatVerifyError.VerificationAPIUnexpectedMessage
        (attemptStatus iface ci.libraries input).message) ∧
    submitsOf (attemptVerification iface ci input).events =
      [injectLibraries ci.libraries input] ∧
    pollsOf (attemptVerification iface ci input).events =
      [iface.verify (injectLibraries ci.libraries input)] := by
  unfold attemptStatus at h
  unfold attemptVerification
  simp [h, submitsOf, pollsOf, attemptStatus]

theorem c2_unexpected_status_witness :
    (attemptVerification samplePendingProvider sampleExtendedInformation
        sampleMinimalInput).response =
      Except.error (HardhatVerifyError.VerificationAPIUnexpectedMessage
        (attemptStatus samplePendingProvider sampleExtendedInformation.libraries
          sampleMinimalInput).message) ∧
    submitsOf (attemptVerification samplePendingProvider sampleExtendedInformation
        sampleMinimalInput).events =
      [injectLibraries sampleExtendedInformation.libraries sampleMinimalInput] ∧
    pollsOf (attemptVerification samplePendingProvider sampleExtendedInformation
        sampleMinimalInput).events =
      [samplePendingProvider.verify
        (injectLibraries sampleExtendedInformation.libraries sampleMinimalInput)] :=
  c2_unexpected_status_is_protocol_violation samplePendingProvider
    sampleExtendedInformation sampleMinimalInput rfl

/-- C7: every submission attempt writes the resolved library table of the
contract information into the compiler input's settings before the input is
submitted, and the submitted payload is exactly that injected input; hence
any two attempts for the same contract information are submitted with
identical linked-library settings. -/
theorem c7_libraries_injected_before_submission
    (iface iface2 : VerificationProvider) (ci : ExtendedContractInformation)
    (input input2 : CompilerInput) :
    (attemptVerification iface ci input).submittedInput =
      injectLibraries ci.libraries input ∧
    (attemptVerification iface ci input).submittedInput.settings.libraries =
      ci.libraries ∧
    submitsOf (attemptVerification iface ci input).events =
      [(attemptVerification iface ci input).submittedInput] ∧
    (attemptVerification iface ci input).submittedInput.settings.libraries =
      (attemptVerification iface2 ci input2).submittedInput.settings.libraries := by
  simp [attemptVerification_submittedInput, attemptVerification_events,
    injectLibraries, submitsOf]

/-- C9: for an address the explorer already reports as verified, the
Etherscan subtask returns successfully right after the is-verified check:
its trace is the single is-verified check, so no deployed bytecode is
fetched, no contract is resolved, and no submission or polling happens. -/
theorem c9_already_verified_short_circuit
    (env : EtherscanEnv) (h : env.isVerified = true) :
    (etherscanAction env).1 = Except.ok () ∧
    (etherscanAction env).2 = [Event.isVerifiedCheck] ∧
    Event.fetchDeployedBytecode ∉ (etherscanAction env).2 ∧
    Event.getContractInformationCall ∉ (etherscanAction env).2 ∧
    submitsOf (etherscanAction env).2 = [] ∧
    pollsOf (etherscanAction env).2 = [] := by
  simp [etherscanAction, h, submitsOf, pollsOf]

theorem c9_already_verified_witness :
    (etherscanAction sampleVerifiedEnv).1 = Except.ok () ∧
    (etherscanAction sampleVerifiedEnv).2 = [Event.isVerifiedCheck] ∧
    Event.fetchDeployedBytecode ∉ (etherscanAction sampleVerifiedEnv).2 ∧
    Event.getContractInformationCall ∉ (etherscanAction sampleVerifiedEnv).2 ∧
    submitsOf (etherscanAction sampleVerifiedEnv).2 = [] ∧
    pollsOf (etherscanAction sampleVerifiedEnv).2 = [] :=
  c9_already_verified_short_circuit sampleVerifiedEnv rfl

/-- C8: when the dependency closure computed for a source file does not
contain exactly one resolved file with that source name, the minimal-input
subtask throws `UnexpectedNumberOfFiles` and builds no compilation job. -/
theorem c8_unexpected_number_of_files
    (env : MinimalInputEnv) (sourceName : String)
    (h : (env.getResolvedFiles.filter fun resolvedFile =>
        resolvedFile.sourceName == sourceName).length ≠ 1) :
    (getMinimalInputAction env sourceName).1 =
      Except.error HardhatVerifyError.UnexpectedNumberOfFiles ∧
    Event.buildCompilationJobCall ∉ (getMinimalInputAction env sourceName).2 := by
  cases hl : env.getResolvedFiles.filter
      (fun resolvedFile => resolvedFile.sourceName == sourceName) with
  | nil => simp [getMinimalInputAction, hl]
  | cons a t =>
    cases t with
    | nil => exact absurd (by rw [hl]; rfl) h
    | cons b t2 => simp [getMinimalInputAction, hl]

theorem c8_unexpected_number_of_files_witness :
    (getMinimalInputAction sampleMinimalInputEnv "contracts/A.sol").1 =
      Except.error HardhatVerifyError.UnexpectedNumberOfFiles ∧
    Event.buildCompilationJobCall ∉
      (getMinimalInputAction sampleMinimalInputEnv "contracts/A.sol").2 :=
  c8_unexpected_number_of_files sampleMinimalInputEnv "contracts/A.sol" (by decide)

/-- C10: in named mode, an exception thrown by the artifact-existence check
is swallowed and treated exactly like a missing artifact: the subtask
throws `ContractNotFound` for the fully-qualified name and never loads
build info. -/
theorem c10_artifact_check_throw_swallowed
    (env : GetContractInformationEnv) (fqn : String) (bc : Bytecode)
    (versions : List String) (libs : LibraryToAddress) (msg : String)
    (h : env.artifactExists fqn = Except.error msg) :
    (getContractInformationAction env (some fqn) bc versions libs).1 =
      Except.error (HardhatVerifyError.ContractNotFound fqn) ∧
    Event.getBuildInfoCall ∉
      (getContractInformationAction env (some fqn) bc versions libs).2 := by
  simp [getContractInformationAction, h]

theorem c10_artifact_check_throw_witness :
    (getContractInformationAction sampleThrowingEnv (some "contracts/A.sol:A")
        sampleBytecode ["0.8.19"] []).1 =
      Except.error (HardhatVerifyError.ContractNotFound "contracts/A.sol:A") ∧
    Event.getBuildInfoCall ∉
      (getContractInformationAction sampleThrowingEnv (some "contracts/A.sol:A")
        sampleBytecode ["0.8.19"] []).2 :=
  c10_artifact_check_throw_swallowed sampleThrowingEnv "contracts/A.sol:A"
    sampleBytecode ["0.8.19"] [] "ENOENT" rfl

/-- C4: in named mode, when the build info's producing compiler version is
not among the matched versions and the deployed bytecode is not
alternate-VM, the subtask throws `BuildInfoCompilerVersionMismatch`
reporting the contract name, the extracted deployed version (and its
range flag), the build-info version and the network; when the deployed
bytecode is alternate-VM the version check is skipped entirely and
resolution proceeds to bytecode extraction. -/
theorem c4_build_info_version_check
    (env : GetContractInformationEnv) (fqn : String) (bc : Bytecode)
    (versions : List String) (libs : LibraryToAddress) (bi : BuildInfo)
    (hex : env.artifactExists fqn = Except.ok true)
    (hbi : env.getBuildInfo fqn = some bi) :
    (bi.solcVersion ∉ versions → bc.isOvm = false →
      (getContractInformationAction env (some fqn) bc versions libs).1 =
        Except.error (HardhatVerifyError.BuildInfoCompilerVersionMismatch fqn
          bc.version bc.hasVersionRange bi.solcVersion env.networkName)) ∧
    (bc.isOvm = true →
      Event.extractMatchingCall ∈
        (getContractInformationAction env (some fqn) bc versions libs).2) := by
  constructor
  · intro hc ho
    simp [getContractInformationAction, hex, hbi, hc, ho]
  · intro ho
    cases hm : env.extractMatchingContractInformation fqn bi bc with
    | none => simp [getContractInformationAction, hex, hbi, ho, hm]
    | some cinfo =>
      cases hli : env.getLibraryInformation cinfo libs with
      | error e =>
        simp [getContractInformationAction, finishWithLibraries, hex, hbi, ho, hm, hli]
      | ok li =>
        simp [getContractInformationAction, finishWithLibraries, hex, hbi, ho, hm, hli]

theorem c4_build_info_version_check_witness :
    (sampleBuildInfo.solcVersion ∉ ["0.8.2"] →
      sampleBytecode.isOvm = false →
      (getContractInformationAction sampleResolverEnv (some "contracts/A.sol:A")
          sampleBytecode ["0.8.2"] []).1 =
        Except.error (HardhatVerifyError.BuildInfoCompilerVersionMismatch
          "contracts/A.sol:A" sampleBytecode.version sampleBytecode.hasVersionRange
          sampleBuildInfo.solcVersion sampleResolverEnv.networkName)) ∧
    (sampleBytecode.isOvm = true →
      Event.extractMatchingCall ∈
        (getContractInformationAction sampleResolverEnv (some "contracts/A.sol:A")
          sampleBytecode ["0.8.2"] []).2) :=
  c4_build_info_version_check sampleResolverEnv "contracts/A.sol:A" sampleBytecode
    ["0.8.2"] [] sampleBuildInfo rfl rfl

/-- C5: in named mode, once the version check has passed, a named contract
whose normalized artifact bytecode does not match the deployed bytecode
(extraction yields no match) makes the subtask throw
`DeployedBytecodeMismatch` naming the network and the fully-qualified
contract, and the inferred-mode scan of other artifacts is never run. -/
theorem c5_named_mode_exact_or_fail
    (env : GetContractInformationEnv) (fqn : String) (bc : Bytecode)
    (versions : List String) (libs : LibraryToAddress) (bi : BuildInfo)
    (hex : env.artifactExists fqn = Except.ok true)
    (hbi : env.getBuildInfo fqn = some bi)
    (hver : bi.solcVersion ∈ versions ∨ bc.isOvm = true)
    (hm : env.extractMatchingContractInformation fqn bi bc = none) :
    (getContractInformationAction env (some fqn) bc versions libs).1 =
      Except.error (HardhatVerifyError.DeployedBytecodeMismatch env.networkName fqn) ∧
    Event.extractInferredCall ∉
      (getContractInformationAction env (some fqn) bc versions libs).2 := by
  cases hver with
  | inl hc => simp [getContractInformationAction, hex, hbi, hc, hm]
  | inr ho => simp [getContractInformationAction, hex, hbi, ho, hm]

theorem c5_named_mode_exact_or_fail_witness :
    (getContractInformationAction sampleResolverEnv (some "contracts/A.sol:A")
        sampleBytecode ["0.8.1"] []).1 =
      Except.error (HardhatVerifyError.DeployedBytecodeMismatch
        sampleResolverEnv.networkName "contracts/A.sol:A") ∧
    Event.extractInferredCall ∉
      (getContractInformationAction sampleResolverEnv (some "contracts/A.sol:A")
        sampleBytecode ["0.8.1"] []).2 :=
  c5_named_mode_exact_or_fail sampleResolverEnv "contracts/A.sol:A" sampleBytecode
    ["0.8.1"] [] sampleBuildInfo rfl rfl (Or.inl (by decide)) rfl

/-- Once the is-verified check and the version-mismatch guard have both
passed, the orchestrator always reaches contract resolution, whatever the
downstream collaborators do. -/
theorem etherscanAction_resolution_proceeds (env : EtherscanEnv)
    (hnv : env.isVerified = false)
    (hguard : ((env.deployedBytecode.getMatchingVersions
        env.configCompilerVersions).length == 0
        && !env.deployedBytecode.isOvm) = false) :
    Event.getContractInformationCall ∈ (etherscanAction env).2 := by
  simp only [etherscanAction]
  rw [hnv, hguard]
  simp only [Bool.false_eq_true, if_false]
  repeat' split
  all_goals simp [attemptVerification_events]

/-- C3: when the set of compiler versions matching the deployed bytecode is
empty, the Etherscan subtask throws `CompilerVersionsMismatch` reporting
the configured versions, the extracted embedded version and the network
name — unless the bytecode is detected as OVM bytecode, in which case no
such error is raised and contract resolution proceeds. -/
theorem c3_compiler_versions_mismatch
    (env : EtherscanEnv)
    (hnv : env.isVerified = false)
    (hempty : (env.deployedBytecode.getMatchingVersions
        env.configCompilerVersions).length = 0) :
    (env.deployedBytecode.isOvm = false →
      (etherscanAction env).1 =
        Except.error (HardhatVerifyError.CompilerVersionsMismatch
          env.configCompilerVersions env.deployedBytecode.version env.networkName)) ∧
    (env.deployedBytecode.isOvm = true →
      Event.getContractInformationCall ∈ (etherscanAction env).2) := by
  constructor
  · intro ho
    simp [etherscanAction, hnv, hempty, ho]
  · intro ho
    exact etherscanAction_resolution_proceeds env hnv (by simp [ho])

theorem c3_compiler_versions_mismatch_witness :
    (sampleMismatchEnv.deployedBytecode.isOvm = false →
      (etherscanAction sampleMismatchEnv).1 =
        Except.error (HardhatVerifyError.CompilerVersionsMismatch
          sampleMismatchEnv.configCompilerVersions
          sampleMismatchEnv.deployedBytecode.version
          sampleMismatchEnv.networkName)) ∧
    (sampleMismatchEnv.deployedBytecode.isOvm = true →
      Event.getContractInformationCall ∈ (etherscanAction sampleMismatchEnv).2) :=
  c3_compiler_versions_mismatch sampleMismatchEnv rfl rfl

/-- C1: for a request that reaches the submission phase, a successful
minimal-input attempt ends the subtask successfully with exactly one
submission; a failed minimal-input attempt triggers exactly one further
submission carrying the full multi-file compiler input; if that full
attempt succeeds the overall result is success, and if both attempts fail
the subtask throws `ContractVerificationFailed` carrying the full
attempt's message (not the minimal attempt's) together with the list of
undetectable libraries. -/
theorem c1_minimal_then_full_attempt
    (env : EtherscanEnv) (ci : ExtendedContractInformation)
    (mi : CompilerInput) (ea : String)
    (hnv : env.isVerified = false)
    (hguard : ((env.deployedBytecode.getMatchingVersions
        env.configCompilerVersions).length == 0
        && !env.deployedBytecode.isOvm) = false)
    (hci : env.getContractInformation
        (env.deployedBytecode.getMatchingVersions env.configCompilerVersions) =
      Except.ok ci)
    (hmi : env.getMinimalInput ci.sourceName = Except.ok mi)
    (henc : env.encodeArguments = Except.ok ea)
    (h0 : ((attemptStatus (env.iface 0) ci.libraries mi).isFailure
        || (attemptStatus (env.iface 0) ci.libraries mi).isSuccess) = true)
    (h1 : ((attemptStatus (env.iface 1) ci.libraries ci.compilerInput).isFailure
        || (attemptStatus (env.iface 1) ci.libraries ci.compilerInput).isSuccess) = true) :
    ((attemptStatus (env.iface 0) ci.libraries mi).isSuccess = true →
      (etherscanAction env).1 = Except.ok () ∧
      submitsOf (etherscanAction env).2 = [injectLibraries ci.libraries mi]) ∧
    ((attemptStatus (env.iface 0) ci.libraries mi).isSuccess = false →
      submitsOf (etherscanAction env).2 =
        [injectLibraries ci.libraries mi,
         injectLibraries ci.libraries ci.compilerInput] ∧
      ((attemptStatus (env.iface 1) ci.libraries ci.compilerInput).isSuccess = true →
        (etherscanAction env).1 = Except.ok ()) ∧
      ((attemptStatus (env.iface 1) ci.libraries ci.compilerInput).isSuccess = false →
        (etherscanAction env).1 = Except.error
          (HardhatVerifyError.ContractVerificationFailed
            (attemptStatus (env.iface 1) ci.libraries ci.compilerInput).message
            ci.undetectableLibraries))) := by
  have ha0r := attemptVerification_response_ok (env.iface 0) ci mi h0
  have ha1r := attemptVerification_response_ok (env.iface 1) ci ci.compilerInput h1
  have ha0e := attemptVerification_events (env.iface 0) ci mi
  have ha1e := attemptVerification_events (env.iface 1) ci ci.compilerInput
  refine ⟨fun hs0 => ?_, fun hs0 => ?_⟩
  · simp [etherscanAction, hnv, hguard, hci, hmi, henc, ha0r, ha0e, hs0, submitsOf]
  · cases hs1 : (attemptStatus (env.iface 1) ci.libraries ci.compilerInput).isSuccess with
    | false =>
      simp [etherscanAction, hnv, hguard, hci, hmi, henc, ha0r, ha1r, ha0e, ha1e,
        hs0, hs1, submitsOf]
    | true =>
      simp [etherscanAction, hnv, hguard, hci, hmi, henc, ha0r, ha1r, ha0e, ha1e,
        hs0, hs1, submitsOf]

theorem c1_minimal_then_full_attempt_witness :
    ((attemptStatus (sampleEtherscanEnv.iface 0) sampleExtendedInformation.libraries
        sampleMinimalInput).isSuccess = true →
      (etherscanAction sampleEtherscanEnv).1 = Except.ok () ∧
      submitsOf (etherscanAction sampleEtherscanEnv).2 =
        [injectLibraries sampleExtendedInformation.libraries sampleMinimalInput]) ∧
    ((attemptStatus (sampleEtherscanEnv.iface 0) sampleExtendedInformation.libraries
        sampleMinimalInput).isSuccess = false →
      submitsOf (etherscanAction sampleEtherscanEnv).2 =
        [injectLibraries sampleExtendedInformation.libraries sampleMinimalInput,
         injectLibraries sampleExtendedInformation.libraries
           sampleExtendedInformation.compilerInput] ∧
      ((attemptStatus (sampleEtherscanEnv.iface 1) sampleExtendedInformation.libraries
          sampleExtendedInformation.compilerInput).isSuccess = true →
        (etherscanAction sampleEtherscanEnv).1 = Except.ok ()) ∧
      ((attemptStatus (sampleEtherscanEnv.iface 1) sampleExtendedInformation.libraries
          sampleExtendedInformation.compilerInput).isSuccess = false →
        (etherscanAction sampleEtherscanEnv).1 = Except.error
          (HardhatVerifyError.ContractVerificationFailed
            (attemptStatus (sampleEtherscanEnv.iface 1)
              sampleExtendedInformation.libraries
              sampleExtendedInformation.compilerInput).message
            sampleExtendedInformation.undetectableLibraries))) :=
  c1_minimal_then_full_attempt sampleEtherscanEnv sampleExtendedInformation
    sampleMinimalInput "" rfl rfl rfl rfl rfl rfl rfl

/-- The subtask loop invokes every pending subtask, in order, regardless of
failures. -/
theorem runSubtasksLoop_invoked (run : String → Except HardhatVerifyError Unit)
    (pending : List String) :
    ∀ (invoked : List String) (errors : List (String × HardhatVerifyError))
      (flag : Bool),
      (runSubtasksLoop run pending invoked errors flag).1 = invoked ++ pending := by
  induction pending with
  | nil => intro invoked errors flag; simp [runSubtasksLoop]
  | cons s rest ih =>
    intro invoked errors flag
    cases hr : run s with
    | ok u => simp [runSubtasksLoop, hr, ih]
    | error e => simp [runSubtasksLoop, hr, ih]

/-- The `hasErrors` flag after the loop is the original flag or-ed with
"some pending subtask failed". -/
theorem runSubtasksLoop_flag (run : String → Except HardhatVerifyError Unit)
    (pending : List String) :
    ∀ (invoked : List String) (errors : List (String × HardhatVerifyError))
      (flag : Bool),
      (runSubtasksLoop run pending invoked errors flag).2.2 =
        (flag || pending.any fun s => isError (run s)) := by
  induction pending with
  | nil => intro invoked errors flag; simp [runSubtasksLoop]
  | cons s rest ih =>
    intro invoked errors flag
    cases hr : run s with
    | ok u => simp [runSubtasksLoop, hr, ih, isError]
    | error e => simp [runSubtasksLoop, hr, ih, isError]

/-- Membership after a JS-object assignment, assuming any binding already
present for the key carries the same value. -/
theorem setKey_mem (m : List (String × HardhatVerifyError)) (s : String)
    (e : HardhatVerifyError) (hm : ∀ x, (s, x) ∈ m → x = e)
    (p : String × HardhatVerifyError) :
    p ∈ setKey m s e ↔ p ∈ m ∨ p = (s, e) := by
  unfold setKey
  by_cases hany : m.any (fun q => q.1 == s) = true
  · rw [if_pos hany]
    simp only [List.mem_map]
    constructor
    · rintro ⟨q, hq, hfq⟩
      by_cases hqs : q.1 == s
      · rw [if_pos hqs] at hfq
        exact Or.inr hfq.symm
      · rw [if_neg hqs] at hfq
        exact Or.inl (hfq ▸ hq)
    · intro hp
      rcases hp with hp | hp
      · by_cases hps : (p.1 == s) = true
        · have hs : p.1 = s := by simpa using hps
          have he : p.2 = e := hm p.2 (by rw [← hs]; exact hp)
          refine ⟨p, hp, ?_⟩
          rw [if_pos hps, ← hs, ← he]
        · refine ⟨p, hp, ?_⟩
          rw [if_neg hps]
      · rcases List.any_eq_true.mp hany with ⟨q, hq, hqs⟩
        have hs : q.1 = s := by simpa using hqs
        have he : q.2 = e := hm q.2 (by rw [← hs]; exact hq)
        refine ⟨q, hq, ?_⟩
        rw [if_pos hqs, hp]
  · rw [if_neg hany]
    simp

/-- Characterization of the error record after the loop: an entry is
present exactly when it was present initially or its subtask is pending
and fails, provided every initial entry records its subtask's actual
failure. -/
theorem runSubtasksLoop_errors (run : String → Except HardhatVerifyError Unit)
    (pending : List String) :
    ∀ (errors : List (String × HardhatVerifyError)) (invoked : List String)
      (flag : Bool),
      (∀ q : String × HardhatVerifyError, q ∈ errors →
        run q.1 = Except.error q.2) →
      ∀ p : String × HardhatVerifyError,
        (p ∈ (runSubtasksLoop run pending invoked errors flag).2.1 ↔
          p ∈ errors ∨ (p.1 ∈ pending ∧ run p.1 = Except.error p.2)) := by
  induction pending with
  | nil =>
    intro errors invoked flag hinv p
    simp [runSubtasksLoop]
  | cons s rest ih =>
    intro errors invoked flag hinv p
    cases hr : run s with
    | ok u =>
      have hstep :
          runSubtasksLoop run (s :: rest) invoked errors flag =
            runSubtasksLoop run rest (invoked ++ [s]) errors flag := by
        simp [runSubtasksLoop, hr]
      rw [hstep, ih errors (invoked ++ [s]) flag hinv p]
      constructor
      · rintro (hp | ⟨hp1, hp2⟩)
        · exact Or.inl hp
        · exact Or.inr ⟨List.mem_cons_of_mem s hp1, hp2⟩
      · rintro (hp | ⟨hp1, hp2⟩)
        · exact Or.inl hp
        · rcases List.mem_cons.mp hp1 with hps | hpr
          · rw [hps, hr] at hp2
            exact absurd hp2 (by simp)
          · exact Or.inr ⟨hpr, hp2⟩
    | error e =>
      have hm : ∀ x, (s, x) ∈ errors → x = e := by
        intro x hx
        have hrx := hinv (s, x) hx
        rw [hr] at hrx
        exact (Except.error.inj hrx).symm
      have hinv' : ∀ q : String × HardhatVerifyError, q ∈ setKey errors s e →
          run q.1 = Except.error q.2 := by
        intro q hq
        rcases (setKey_mem errors s e hm q).mp hq with hq | hq
        · exact hinv q hq
        · rw [hq]
          exact hr
      have hstep :
          runSubtasksLoop run (s :: rest) invoked errors flag =
            runSubtasksLoop run rest (invoked ++ [s]) (setKey errors s e) true := by
        simp [runSubtasksLoop, hr]
      rw [hstep, ih (setKey errors s e) (invoked ++ [s]) true hinv' p,
        setKey_mem errors s e hm p]
      constructor
      · rintro ((hp | hp) | ⟨hp1, hp2⟩)
        · exact Or.inl hp
        · refine Or.inr ⟨?_, ?_⟩
          · rw [hp]
            exact List.mem_cons_self s rest
          · rw [hp, hr]
        · exact Or.inr ⟨List.mem_cons_of_mem s hp1, hp2⟩
      · rintro (hp | ⟨hp1, hp2⟩)
        · exact Or.inl (Or.inl hp)
        · rcases List.mem_cons.mp hp1 with hps | hpr
          · refine Or.inl (Or.inr ?_)
            have hp2' := hp2
            rw [hps, hr] at hp2'
            have he : e = p.2 := Except.error.inj hp2'
            calc p = (p.1, p.2) := rfl
              _ = (s, e) := by rw [hps, he]
          · exact Or.inr ⟨hpr, hp2⟩

/-- C6: the verify meta-task runs every verification back-end even when
earlier ones fail, captures each back-end's failure keyed by back-end, and
after all back-ends finish either reports every captured failure together
and exits with status 1 (when at least one failed) or reports nothing and
exits normally (when none failed). -/
theorem c6_backend_failures_collected
    (verificationSubtasks : List String)
    (runSubtask : String → Except HardhatVerifyError Unit) :
    (verifyTaskAction false verificationSubtasks runSubtask).invoked =
      verificationSubtasks ∧
    (∀ (s : String) (e : HardhatVerifyError),
      ((s, e) ∈ (verifyTaskAction false verificationSubtasks runSubtask).errors ↔
        s ∈ verificationSubtasks ∧ runSubtask s = Except.error e)) ∧
    ((∃ s ∈ verificationSubtasks, isError (runSubtask s) = true) →
      (verifyTaskAction false verificationSubtasks runSubtask).reported =
        some (verifyTaskAction false verificationSubtasks runSubtask).errors ∧
      (verifyTaskAction false verificationSubtasks runSubtask).exitCode = some 1) ∧
    ((∀ s ∈ verificationSubtasks, runSubtask s = Except.ok ()) →
      (verifyTaskAction false verificationSubtasks runSubtask).reported = none ∧
      (verifyTaskAction false verificationSubtasks runSubtask).exitCode = none ∧
      (verifyTaskAction false verificationSubtasks runSubtask).errors = []) := by
  have hinv0 : ∀ q : String × HardhatVerifyError,
      q ∈ ([] : List (String × HardhatVerifyError)) →
      runSubtask q.1 = Except.error q.2 := by
    intro q hq
    exact absurd hq (List.not_mem_nil q)
  have herr := runSubtasksLoop_errors runSubtask verificationSubtasks [] [] false hinv0
  have hflag := runSubtasksLoop_flag runSubtask verificationSubtasks [] [] false
  refine ⟨?_, ?_, ?_, ?_⟩
  · simp [verifyTaskAction, runSubtasksLoop_invoked]
  · intro s e
    have := herr (s, e)
    simpa [verifyTaskAction] using this
  · intro hex
    have hany : (verificationSubtasks.any fun s => isError (runSubtask s)) = true := by
      rcases hex with ⟨s, hs, hserr⟩
      exact List.any_eq_true.mpr ⟨s, hs, hserr⟩
    simp [verifyTaskAction, hflag, hany]
  · intro hok
    have hany : (verificationSubtasks.any fun s => isError (runSubtask s)) = false := by
      rw [List.any_eq_false]
      intro s hs
      rw [hok s hs]
      simp [isError]
    refine ⟨?_, ?_, ?_⟩
    · simp [verifyTaskAction, hflag, hany]
    · simp [verifyTaskAction, hflag, hany]
    · rw [List.eq_nil_iff_forall_not_mem]
      intro p hp
      have hp' := (herr p).mp (by simpa [verifyTaskAction] using hp)
      rcases hp' with hp' | ⟨hp1, hp2⟩
      · exact absurd hp' (List.not_mem_nil p)
      · rw [hok p.1 hp1] at hp2
        exact absurd hp2 (by simp)

theorem c6_backend_failures_witness :
    (verifyTaskAction false ["verify:etherscan", "verify:sourcify"]
        sampleRunSubtask).invoked = ["verify:etherscan", "verify:sourcify"] ∧
    (∀ (s : String) (e : HardhatVerifyError),
      ((s, e) ∈ (verifyTaskAction false ["verify:etherscan", "verify:sourcify"]
          sampleRunSubtask).errors ↔
        s ∈ ["verify:etherscan", "verify:sourcify"] ∧
        sampleRunSubtask s = Except.error e)) ∧
    ((∃ s ∈ ["verify:etherscan", "verify:sourcify"],
        isError (sampleRunSubtask s) = true) →
      (verifyTaskAction false ["verify:etherscan", "verify:sourcify"]
          sampleRunSubtask).reported =
        some (verifyTaskAction false ["verify:etherscan", "verify:sourcify"]
          sampleRunSubtask).errors ∧
      (verifyTaskAction false ["verify:etherscan", "verify:sourcify"]
          sampleRunSubtask).exitCode = some 1) ∧
    ((∀ s ∈ ["verify:etherscan", "verify:sourcify"],
        sampleRunSubtask s = Except.ok ()) →
      (verifyTaskAction false ["verify:etherscan", "verify:sourcify"]
          sampleRunSubtask).reported = none ∧
      (verifyTaskAction false ["verify:etherscan", "verify:sourcify"]
          sampleRunSubtask).exitCode = none ∧
      (verifyTaskAction false ["verify:etherscan", "verify:sourcify"]
          sampleRunSubtask).errors = []) :=
  c6_backend_failures_collected ["verify:etherscan", "verify:sourcify"]
    sampleRunSubtask

end HardhatVerify
